import Mathlib

/-
Verification of the IPv6 address-pool server of the `webu` repository
(`src/webu/ipv6/server.py` and `src/webu/ipv6/route.py`).

The Python code is shallowly embedded:
- `datetime` instants are modelled abstractly as `Nat`; `isoformat` and
  `fromisoformat` are mutually inverse on real datetimes, so a serialized
  timestamp is modelled by the instant it denotes.
- Python dicts (which preserve insertion order and have unique keys) are
  modelled as association lists; new keys are appended at the end exactly
  as dict assignment does.  The unique-key property of a real dict is the
  well-formedness predicate `MirrorDB.wf`.
- `json.load` of a file is modelled by its parse result: `none` stands for
  a missing file or malformed JSON (the `except` branch of `load`).
- Network and clock effects are parameters: the reachability checker is an
  oracle `Nat → Bool` (result of the i-th check of one candidate), and
  `datetime.now()` is an explicit `now` argument.
-/

namespace Webu

/-- Abstract instant; stands for a Python `datetime` value. -/
abbrev DateTime := Nat

/-- Status of IPv6 address in a mirror (`class AddrStatus` in server.py).
The Python member `using` is named `inUse` here because `using` cannot be a
Lean identifier; its string value stays `"using"`. -/
inductive AddrStatus where
  | idle
  | inUse
  | unusable
deriving DecidableEq, Repr

/-- The string value of a status (`AddrStatus.value` in Python,
`"idle" | "using" | "unusable"`). -/
def AddrStatus.value : AddrStatus → String
  | AddrStatus.idle => "idle"
  | AddrStatus.inUse => "using"
  | AddrStatus.unusable => "unusable"

/-- The `AddrStatus(s)` enum constructor: `none` models the `ValueError`
raised on an unknown status string. -/
def AddrStatus.ofValue (s : String) : Option AddrStatus :=
  if s = "idle" then some AddrStatus.idle
  else if s = "using" then some AddrStatus.inUse
  else if s = "unusable" then some AddrStatus.unusable
  else none

/-- Embeds `class GlobalAddrInfo`: info for a single address in the global db.
The constructor always sets `created_at` (defaulting to `now`), but
`from_dict` may produce `none`, hence the `Option`. -/
structure GlobalAddrInfo where
  addr : String
  created_at : Option DateTime
deriving DecidableEq, Repr

/-- Serialized form of `GlobalAddrInfo` (`to_dict` output).  The
`created_at` field holds the instant denoted by the stored ISO string
(`none` for JSON `null`). -/
structure GlobalAddrDict where
  addr : String
  created_at : Option DateTime
deriving DecidableEq, Repr

def GlobalAddrInfo.to_dict (info : GlobalAddrInfo) : GlobalAddrDict :=
  { addr := info.addr, created_at := info.created_at }

/-- Embeds `GlobalAddrInfo.from_dict`: rebuilds the record from its dict. -/
def GlobalAddrInfo.from_dict (data : GlobalAddrDict) : GlobalAddrInfo :=
  { addr := data.addr, created_at := data.created_at }

/-- Embeds `class MirrorAddrInfo`: info for a single address in a mirror db. -/
structure MirrorAddrInfo where
  addr : String
  status : AddrStatus
  last_used_at : Option DateTime
  use_count : Nat
deriving DecidableEq, Repr

/-- Serialized form of `MirrorAddrInfo` (`to_dict` output); `status` is the
raw string as stored in JSON. -/
structure MirrorAddrDict where
  addr : String
  status : String
  last_used_at : Option DateTime
  use_count : Nat
deriving DecidableEq, Repr

def MirrorAddrInfo.to_dict (info : MirrorAddrInfo) : MirrorAddrDict :=
  { addr := info.addr
  , status := info.status.value
  , last_used_at := info.last_used_at
  , use_count := info.use_count }

/-- Embeds `MirrorAddrInfo.from_dict`: `none` models the exception raised by
`AddrStatus(data.get("status", "idle"))` on an unknown status string; the
typed dict always carries the `status` key that `to_dict` writes. -/
def MirrorAddrInfo.from_dict (data : MirrorAddrDict) : Option MirrorAddrInfo :=
  match AddrStatus.ofValue data.status with
  | none => none
  | some st =>
    some { addr := data.addr
         , status := st
         , last_used_at := data.last_used_at
         , use_count := data.use_count }

/-- Embeds `class AddrReportInfo`: a client status report. -/
structure AddrReportInfo where
  addr : String
  status : AddrStatus
  report_at : Option DateTime
deriving DecidableEq, Repr

/-- First-match lookup in an association list; the semantics of `d[k]` /
`d.get(k)` on the dict modelled by the list. -/
def findAddr {α : Type} : List (String × α) → String → Option α
  | [], _ => none
  | p :: rest, a => if p.1 = a then some p.2 else findAddr rest a

-- ========== GlobalAddrsDB ==========

/-- In-memory state of `class GlobalAddrsDB` (the path, verbosity flag and
lock carry no observable state and are omitted). -/
structure GlobalAddrsDB where
  prefixStr : Option String
  addrs : List (String × GlobalAddrInfo)
deriving DecidableEq, Repr

/-- Serialized global db document
`{"prefix": ..., "addrs": {addr: info.to_dict()}}`. -/
structure GlobalDBData where
  prefixStr : Option String
  addrs : List (String × GlobalAddrDict)
deriving DecidableEq, Repr

/-- Embeds `GlobalAddrsDB.save`: the JSON document written to disk. -/
def GlobalAddrsDB.save (db : GlobalAddrsDB) : GlobalDBData :=
  { prefixStr := db.prefixStr
  , addrs := db.addrs.map (fun p => (p.1, p.2.to_dict)) }

/-- Embeds `GlobalAddrsDB.load`: on a missing file or a parse failure (`none`) the
in-memory state is left untouched (the `except` branch assigns nothing);
otherwise `prefix` and `addrs` are replaced wholesale. -/
def GlobalAddrsDB.load (db : GlobalAddrsDB) (parsed : Option GlobalDBData) :
    GlobalAddrsDB :=
  match parsed with
  | none => db
  | some data =>
    { prefixStr := data.prefixStr
    , addrs := data.addrs.map (fun p => (p.1, GlobalAddrInfo.from_dict p.2)) }

/-- The state set up by `GlobalAddrsDB.__init__` before it calls `load()`:
`addrs = {}` and `prefix = None`. -/
def GlobalAddrsDB.initial : GlobalAddrsDB :=
  { prefixStr := none, addrs := [] }

/-- Embeds `GlobalAddrsDB.__init__`: fresh empty state, then `load()` from the
persisted file (parse result passed in). -/
def GlobalAddrsDB.mkFromFile (parsed : Option GlobalDBData) : GlobalAddrsDB :=
  GlobalAddrsDB.initial.load parsed

/-- Embeds `GlobalAddrsDB.add_addr`: returns `False` and changes nothing when the
address is already present, otherwise inserts a fresh record. -/
def GlobalAddrsDB.add_addr (db : GlobalAddrsDB) (addr : String)
    (now : DateTime) : Bool × GlobalAddrsDB :=
  if (findAddr db.addrs addr).isSome then
    (false, db)
  else
    (true, { db with addrs := db.addrs ++ [(addr, { addr := addr, created_at := some now })] })

/-- Embeds `GlobalAddrsDB.has_addr`. -/
def GlobalAddrsDB.has_addr (db : GlobalAddrsDB) (addr : String) : Bool :=
  (findAddr db.addrs addr).isSome

/-- Embeds `GlobalAddrsDB.get_all_addrs`: `list(self.addrs.keys())`. -/
def GlobalAddrsDB.get_all_addrs (db : GlobalAddrsDB) : List String :=
  db.addrs.map Prod.fst

-- ========== MirrorDB ==========

/-- In-memory state of `class MirrorDB`. -/
structure MirrorDB where
  dbname : String
  addrs : List (String × MirrorAddrInfo)
deriving DecidableEq, Repr

/-- Serialized mirror document `{"dbname": ..., "addrs": {...}}`. -/
structure MirrorDBData where
  dbname : String
  addrs : List (String × MirrorAddrDict)
deriving DecidableEq, Repr

/-- A real dict never holds two entries with one key; this is the
well-formedness carried by every state reachable from the constructor. -/
def MirrorDB.wf (db : MirrorDB) : Prop :=
  (db.addrs.map Prod.fst).Nodup

/-- Embeds `MirrorDB.save`: the JSON document written to disk. -/
def MirrorDB.save (db : MirrorDB) : MirrorDBData :=
  { dbname := db.dbname
  , addrs := db.addrs.map (fun p => (p.1, p.2.to_dict)) }

/-- Decode the `addrs` object of a mirror document; `none` when any record
fails `from_dict` (the dict comprehension in `load` raises, so the whole
assignment is aborted). -/
def decodeMirrorAddrs :
    List (String × MirrorAddrDict) → Option (List (String × MirrorAddrInfo))
  | [] => some []
  | p :: rest =>
    match MirrorAddrInfo.from_dict p.2, decodeMirrorAddrs rest with
    | some info, some l => some ((p.1, info) :: l)
    | _, _ => none

/-- Embeds `MirrorDB.load`: on a missing file, a parse failure, or a record that
fails to decode, the in-memory state is untouched; otherwise `addrs` is
replaced (`dbname` is never read back). -/
def MirrorDB.load (db : MirrorDB) (parsed : Option MirrorDBData) : MirrorDB :=
  match parsed with
  | none => db
  | some data =>
    match decodeMirrorAddrs data.addrs with
    | none => db
    | some l => { db with addrs := l }

/-- The state set up by `MirrorDB.__init__` before it calls `load()`. -/
def MirrorDB.initialFor (dbname : String) : MirrorDB :=
  { dbname := dbname, addrs := [] }

/-- Embeds `MirrorDB.__init__`: fresh empty state, then `load()`. -/
def MirrorDB.mkFromFile (dbname : String) (parsed : Option MirrorDBData) :
    MirrorDB :=
  (MirrorDB.initialFor dbname).load parsed

/-- Embeds `MirrorAddrInfo(addr=addr)`: the fresh record created for a newly
synced address (defaults: `IDLE`, no `last_used_at`, `use_count = 0`). -/
def freshIdleInfo (addr : String) : MirrorAddrInfo :=
  { addr := addr, status := AddrStatus.idle, last_used_at := none, use_count := 0 }

/-- The additive half of `sync_from_global`: append a fresh `IDLE` record
for every global address not yet present, in global order. -/
def syncAdd (addrs : List (String × MirrorAddrInfo)) (global_addrs : List String) :
    List (String × MirrorAddrInfo) :=
  global_addrs.foldl
    (fun acc addr =>
      if (findAddr acc addr).isSome then acc
      else acc ++ [(addr, freshIdleInfo addr)])
    addrs

/-- Embeds `MirrorDB.sync_from_global`: add missing global addresses, then delete
every address not in `global_addrs`. -/
def MirrorDB.sync_from_global (db : MirrorDB) (global_addrs : List String) :
    MirrorDB :=
  let kept := (syncAdd db.addrs global_addrs).filter (fun p => decide (p.1 ∈ global_addrs))
  { db with addrs := kept }

/-- The loop body of `get_idle_addr` over the ordered entries: mark the
first `IDLE` record as `USING`, stamp `last_used_at`, bump `use_count`,
and return its key. -/
def acquireIdle (now : DateTime) :
    List (String × MirrorAddrInfo) →
      Option String × List (String × MirrorAddrInfo)
  | [] => (none, [])
  | (a, info) :: rest =>
    if info.status = AddrStatus.idle then
      let info' := { info with status := AddrStatus.inUse, last_used_at := some now, use_count := info.use_count + 1 }
      (some a, (a, info') :: rest)
    else
      let r := acquireIdle now rest
      (r.1, (a, info) :: r.2)

/-- Embeds `MirrorDB.get_idle_addr`: get an idle addr and mark it as using. -/
def MirrorDB.get_idle_addr (db : MirrorDB) (now : DateTime) :
    Option String × MirrorDB :=
  let r := acquireIdle now db.addrs
  (r.1, { db with addrs := r.2 })

/-- Embeds `MirrorDB.release_addr`: if the reported address is known, set its
status to the reported status; otherwise do nothing. -/
def MirrorDB.release_addr (db : MirrorDB) (report_info : AddrReportInfo) :
    MirrorDB :=
  if (findAddr db.addrs report_info.addr).isSome then
    let upd := db.addrs.map (fun p =>
      if p.1 = report_info.addr then (p.1, { p.2 with status := report_info.status }) else p)
    { db with addrs := upd }
  else db

-- ========== IPv6DBServer: spawn / spawns ==========

/-- Modelled from the spec: `SPAWN_MAX_RETRIES` is imported by `server.py`
from `constants.py` but is absent from that file in the source tree; the
spec gives its default as 100. -/
def SPAWN_MAX_RETRIES : Nat := 100

/-- Modelled from the spec: `SPAWN_MAX_ADDRS` is imported by `server.py`
from `constants.py` but is absent from that file in the source tree; the
spec gives its default as 100. -/
def SPAWN_MAX_ADDRS : Nat := 100

/-- The slice of `IPv6DBServer` state that `spawn`/`spawns` touch: the
global db and the mirror map (a dict `dbname → MirrorDB`). -/
structure ServerState where
  global_db : GlobalAddrsDB
  mirrors : List (String × MirrorDB)
deriving DecidableEq, Repr

/-- Embeds `IPv6DBServer._sync_all_mirrors`: sync every mirror from the global
address list. -/
def ServerState.sync_all_mirrors (st : ServerState) : ServerState :=
  let ga := st.global_db.get_all_addrs
  { st with mirrors := st.mirrors.map (fun p => (p.1, p.2.sync_from_global ga)) }

/-- The success branch of `spawn`: `global_db.add_addr(addr)` followed by
`_sync_all_mirrors()`. -/
def ServerState.admitAddr (st : ServerState) (addr : String) (now : DateTime) :
    ServerState :=
  let g := (st.global_db.add_addr addr now).2
  ServerState.sync_all_mirrors { st with global_db := g }

/-- The retry loop of `spawn` from attempt index `i` with `fuel` attempts
left.  `checker i` is the result of `self.check(addr)` on attempt `i`;
the third component counts the checks performed. -/
def ServerState.spawnFrom (addr : String) (checker : Nat → Bool)
    (now : DateTime) (st : ServerState) :
    Nat → Nat → Option String × ServerState × Nat
  | _, 0 => (none, st, 0)
  | i, fuel + 1 =>
    if checker i then
      (some addr, st.admitAddr addr now, 1)
    else
      let r := ServerState.spawnFrom addr checker now st (i + 1) fuel
      (r.1, r.2.1, r.2.2 + 1)

/-- Embeds `IPv6DBServer.spawn`: generate one candidate (`addr`, passed in because
generation is random), check it up to `SPAWN_MAX_RETRIES` times, admit on
first success; returns the result, the new state, and the number of checks
performed. -/
def ServerState.spawn (addr : String) (checker : Nat → Bool) (now : DateTime)
    (st : ServerState) : Option String × ServerState × Nat :=
  ServerState.spawnFrom addr checker now st 0 SPAWN_MAX_RETRIES

/-- Result of `IPv6DBServer.spawns`; the Python method returns the pair
`(addrs, should_stop)`, and the embedding additionally threads the state
and counts the `spawn()` calls made. -/
structure SpawnsResult where
  addrs : List String
  should_stop : Bool
  state : ServerState
  attempts : Nat
deriving DecidableEq, Repr

/-- The loop of `spawns`: `k` is the index of the next `spawn()` call (for
the generation and checker oracles), `n` the remaining iterations of
`range(num)`, `fails` the consecutive-failure counter, `att` the number of
`spawn()` calls made so far. -/
def ServerState.spawnsGo (gen : Nat → String) (checker : Nat → Nat → Bool)
    (now : DateTime) :
    Nat → Nat → List String → Nat → Nat → ServerState → SpawnsResult
  | _, 0, addrs, fails, att, st =>
    { addrs := addrs, should_stop := decide (SPAWN_MAX_ADDRS ≤ fails)
    , state := st, attempts := att }
  | k, n + 1, addrs, fails, att, st =>
    let r := ServerState.spawn (gen k) (checker k) now st
    match r.1 with
    | some a =>
      ServerState.spawnsGo gen checker now (k + 1) n (addrs ++ [a]) 0 (att + 1) r.2.1
    | none =>
      let fails' := fails + 1
      if SPAWN_MAX_ADDRS ≤ fails' then
        { addrs := addrs, should_stop := decide (SPAWN_MAX_ADDRS ≤ fails')
        , state := r.2.1, attempts := att + 1 }
      else
        ServerState.spawnsGo gen checker now (k + 1) n addrs fails' (att + 1) r.2.1

/-- Embeds `IPv6DBServer.spawns(num)`: spawn up to `num` addresses, stopping early
when `SPAWN_MAX_ADDRS` consecutive `spawn()` calls fail; `gen k` is the
random address generated by the k-th call and `checker k` its check
oracle. -/
def ServerState.spawns (gen : Nat → String) (checker : Nat → Nat → Bool)
    (now : DateTime) (num : Nat) (st : ServerState) : SpawnsResult :=
  ServerState.spawnsGo gen checker now 0 num [] 0 0 st

-- ========== FastAPI handler for GET /spawns ==========

/-- JSON body returned by the `/spawns` handler.  The handler binds the
whole pair returned by `server.spawns(num)` to its local variable `addrs`
without unpacking it, so the `addrs` field of the response is that pair. -/
structure SpawnsResponse where
  success : Bool
  addrs : List String × Bool
deriving DecidableEq, Repr

/-- Python `len` of the 2-tuple bound to the handler variable `addrs`. -/
def pyTupleLen (_p : List String × Bool) : Nat := 2

/-- The `GET /spawns` handler: `addrs = server.spawns(num)` (the un-unpacked
pair), then `{"success": len(addrs) > 0, "addrs": addrs}`. -/
def spawnsHandler (gen : Nat → String) (checker : Nat → Nat → Bool)
    (now : DateTime) (num : Nat) (st : ServerState) : SpawnsResponse :=
  let r := ServerState.spawns gen checker now num st
  let addrs := (r.addrs, r.should_stop)
  { success := decide (0 < pyTupleLen addrs), addrs := addrs }

-- ========== Mirror operation traces (pick / report) ==========

/-- One client operation on a single mirror: `pick` is
`MirrorDB.get_idle_addr` (with the current time), `report` is
`MirrorDB.release_addr` with the reported status. -/
inductive MirrorOp where
  | pick (now : DateTime)
  | report (addr : String) (status : AddrStatus)
deriving DecidableEq, Repr

/-- Apply one operation; the second component is the address returned by a
`pick` (`none` for a report). -/
def MirrorDB.step (db : MirrorDB) : MirrorOp → MirrorDB × Option String
  | MirrorOp.pick now =>
    let r := db.get_idle_addr now
    (r.2, r.1)
  | MirrorOp.report a s =>
    (db.release_addr { addr := a, status := s, report_at := none }, none)

/-- Run a sequence of operations, collecting each operation's result. -/
def MirrorDB.run (db : MirrorDB) : List MirrorOp → MirrorDB × List (Option String)
  | [] => (db, [])
  | op :: ops =>
    let r := db.step op
    let rest := r.1.run ops
    (rest.1, r.2 :: rest.2)

-- ========== IPv6Prefixer (route.py) ==========

/-- Python `str.startswith(pre)`, computed over the characters (the
built-in `String.startsWith` is not kernel-reducible). -/
def strStartsWith (s pre : String) : Bool :=
  pre.toList.isPrefixOf s.toList

/-- Python `str.lower()` for the ASCII interface names involved. -/
def strToLower (s : String) : String :=
  String.mk (s.toList.map Char.toLower)

/-- One entry of `netifaces.ifaddresses(iface)[netifaces.AF_INET6]`.  The
source reads the mask as `addr_info.get("netmask") or addr_info.get("mask")`;
this external-library lookup is collapsed into the effective mask string. -/
structure AddrInfoEntry where
  addr : String
  netmask : String
deriving DecidableEq, Repr

/-- One network interface as seen through `netifaces`: its name and its
IPv6 address entries (`[]` when `AF_INET6` is absent, which the source
skips just as an empty list makes its inner loop do nothing). -/
structure NetInterface where
  name : String
  ipv6_addrs : List AddrInfoEntry
deriving DecidableEq, Repr

/-- One element of `IPv6Prefixer.interfaces`. -/
structure IfaceRecord where
  interface : String
  addr : String
  netmask : String
  prefixStr : String
  prefixBits : Nat
deriving DecidableEq, Repr

/-- Embeds `netmask.count("f")`. -/
def countF (s : String) : Nat :=
  (s.toList.filter (fun c => c == 'f')).length

/-- Embeds `IPv6Prefixer._get_prefix_from_addr_netmask`: each `f` hex digit of the
mask is 4 bits; the prefix keeps `prefix_bits // 16` whole 16-bit groups
of the address. -/
def get_prefix_from_addr_netmask (addr : String) (netmask : String) :
    String × Nat :=
  let prefixBits := countF netmask * 4
  let num_groups := prefixBits / 16
  let addr_groups := addr.splitOn ":"
  (String.intercalate ":" (addr_groups.take num_groups), prefixBits)

/-- The records one interface contributes in
`IPv6Prefixer._init_network_interfaces`: nothing for a `cloudflare*`
interface; otherwise one record per address taken in listed order, and the
inner `for` loop breaks at the first address not starting with `"2"`. -/
def collectInterface (itf : NetInterface) : List IfaceRecord :=
  if strStartsWith (strToLower itf.name) "cloudflare" then []
  else
    (itf.ipv6_addrs.takeWhile (fun e => strStartsWith e.addr "2")).map (fun e =>
      let pr := get_prefix_from_addr_netmask e.addr e.netmask
      { interface := itf.name, addr := e.addr, netmask := e.netmask
      , prefixStr := pr.1, prefixBits := pr.2 })

/-- Embeds `IPv6Prefixer._init_network_interfaces` over the host's interface
list. -/
def init_network_interfaces (ifaces : List NetInterface) : List IfaceRecord :=
  ifaces.foldl (fun acc itf => acc ++ collectInterface itf) []

/-- Python `str.strip(":")`: drop leading and trailing colons. -/
def stripColons (s : String) : String :=
  String.mk (((s.toList.dropWhile (fun c => c == ':')).reverse.dropWhile (fun c => c == ':')).reverse)

/-- What `IPv6Prefixer._init_prefix` stores on `self`. -/
structure PrefixResult where
  netint : String
  prefixStr : String
  prefixBits : Nat
deriving DecidableEq, Repr

/-- Embeds `IPv6Prefixer._init_prefix`: takes `self.interfaces[0]`; `none` models
the `IndexError` raised when no interface qualified (the spec's
`NoGlobalIPv6` failure). -/
def init_prefix_result (records : List IfaceRecord) : Option PrefixResult :=
  match records with
  | [] => none
  | r :: _ =>
    some { netint := r.interface, prefixStr := stripColons r.prefixStr
         , prefixBits := r.prefixBits }

/-- Embeds `IPv6Prefixer.__init__`: probe the interfaces, then derive the prefix
from the first collected record. -/
def IPv6PrefixerInit (ifaces : List NetInterface) : Option PrefixResult :=
  init_prefix_result (init_network_interfaces ifaces)

/-- Modelled from the spec (claim side, for comparison with
`IPv6PrefixerInit`): an interface qualifies when it is not excluded and has
at least one global unicast IPv6 address (first hex digit `2`). -/
def claimQualifiesAtLeastOne (itf : NetInterface) : Bool :=
  !(strStartsWith (strToLower itf.name) "cloudflare") &&
    itf.ipv6_addrs.any (fun e => strStartsWith e.addr "2")

/-- The qualification the code actually implements: the interface is not
excluded and its first listed IPv6 address starts with `"2"`. -/
def firstAddrQualifies (itf : NetInterface) : Bool :=
  !(strStartsWith (strToLower itf.name) "cloudflare") &&
    (match itf.ipv6_addrs with
     | [] => false
     | e :: _ => strStartsWith e.addr "2")

/-- The amended-claim selection: pick the first interface whose first
listed IPv6 address is global unicast, and derive the prefix from that
address and its netmask. -/
def firstAddrProbe (ifaces : List NetInterface) : Option PrefixResult :=
  match ifaces.find? firstAddrQualifies with
  | none => none
  | some itf =>
    match itf.ipv6_addrs with
    | [] => none
    | e :: _ =>
      let pr := get_prefix_from_addr_netmask e.addr e.netmask
      some { netint := itf.name, prefixStr := stripColons pr.1
           , prefixBits := pr.2 }

-- ========== Concrete sample states (used to instantiate theorems) ==========

/-- A fresh `IDLE` mirror record for a sample address. -/
def sampleInfo : MirrorAddrInfo :=
  { addr := "2001:db8:1:2:1:2:3:4", status := AddrStatus.idle
  , last_used_at := none, use_count := 0 }

/-- A mirror holding one idle address. -/
def sampleMirror : MirrorDB :=
  { dbname := "default", addrs := [("2001:db8:1:2:1:2:3:4", sampleInfo)] }

/-- A mirror holding two idle addresses. -/
def twoIdleMirror : MirrorDB :=
  { dbname := "default"
  , addrs := [("2001:db8::a", { addr := "2001:db8::a", status := AddrStatus.idle, last_used_at := none, use_count := 0 })
             , ("2001:db8::b", { addr := "2001:db8::b", status := AddrStatus.idle, last_used_at := none, use_count := 0 })] }

/-- A sample status report. -/
def sampleReport : AddrReportInfo :=
  { addr := "2001:db8:1:2:1:2:3:4", status := AddrStatus.unusable, report_at := some 9 }

/-- Server state with an empty global pool and no mirrors. -/
def stEmpty : ServerState :=
  { global_db := GlobalAddrsDB.initial, mirrors := [] }

/-- An interface whose first IPv6 address is link-local and whose second is
global unicast: it qualifies under the spec's "has at least one global
unicast address" but contributes nothing under the code's first-address
rule. -/
def sampleIface : NetInterface :=
  { name := "eth0"
  , ipv6_addrs := [ { addr := "fe80::1", netmask := "ffff:ffff:ffff:ffff::" }
                  , { addr := "2001:db8:1:2:0:0:0:1", netmask := "ffff:ffff:ffff:ffff::" } ] }

-- ========== Lemmas about findAddr ==========

theorem findAddr_append_of_isSome {α : Type} (l1 l2 : List (String × α))
    (a : String) (h : (findAddr l1 a).isSome) :
    findAddr (l1 ++ l2) a = findAddr l1 a := by
  induction l1 with
  | nil => simp [findAddr] at h
  | cons p rest ih =>
    by_cases hp : p.1 = a
    · simp [findAddr, hp]
    · simp only [findAddr, hp, if_false] at h ⊢
      exact ih h

theorem findAddr_append_of_none {α : Type} (l1 l2 : List (String × α))
    (a : String) (h : findAddr l1 a = none) :
    findAddr (l1 ++ l2) a = findAddr l2 a := by
  induction l1 with
  | nil => rfl
  | cons p rest ih =>
    by_cases hp : p.1 = a
    · simp [findAddr, hp] at h
    · simp only [findAddr, hp, if_false] at h ⊢
      exact ih h

theorem findAddr_isSome_iff_mem {α : Type} (l : List (String × α)) (a : String) :
    (findAddr l a).isSome ↔ a ∈ l.map Prod.fst := by
  induction l with
  | nil => simp [findAddr]
  | cons p rest ih =>
    by_cases hp : p.1 = a
    · simp [findAddr, hp]
    · simp only [findAddr, hp, if_false, List.map_cons, List.mem_cons, ih]
      constructor
      · exact Or.inr
      · intro h
        cases h with
        | inl h => exact absurd h.symm hp
        | inr h => exact h

theorem findAddr_map_update {α : Type} (l : List (String × α)) (k : String)
    (f : α → α) (a : String) :
    findAddr (l.map (fun p => if p.1 = k then (p.1, f p.2) else p)) a =
      if a = k then (findAddr l a).map f else findAddr l a := by
  induction l with
  | nil => simp [findAddr]
  | cons p rest ih =>
    by_cases hpk : p.1 = k
    · subst hpk
      by_cases hpa : p.1 = a
      · subst hpa
        simp [findAddr]
      · have hak : ¬ a = p.1 := fun h => hpa h.symm
        simp [findAddr, hpa, hak, ih]
    · by_cases hpa : p.1 = a
      · subst hpa
        have hak : ¬ p.1 = k := hpk
        simp [findAddr, hpk, hak]
      · simp [findAddr, hpk, hpa, ih]

-- ========== C8: corrupt persistence files ==========

/-- Claim C8: when the persisted file is malformed JSON (parse result
`none`), the constructor-time `load()` leaves both the global pool and any
mirror as an empty store, with no exception modelled and no address
observable. -/
theorem load_malformed_empty :
    (GlobalAddrsDB.mkFromFile none).get_all_addrs = [] ∧
    (GlobalAddrsDB.mkFromFile none).addrs = [] ∧
    ∀ dbname : String, (MirrorDB.mkFromFile dbname none).addrs = [] :=
  ⟨rfl, rfl, fun _ => rfl⟩

-- ========== C10: save / load round trip ==========

theorem GlobalAddrInfo.from_to_dict_id (info : GlobalAddrInfo) :
    GlobalAddrInfo.from_dict info.to_dict = info := rfl

theorem MirrorAddrInfo.from_to_dict_some (info : MirrorAddrInfo) :
    MirrorAddrInfo.from_dict info.to_dict = some info := by
  cases info with
  | mk addr status lua uc => cases status <;> rfl

theorem decodeMirrorAddrs_encode (l : List (String × MirrorAddrInfo)) :
    decodeMirrorAddrs (l.map (fun p => (p.1, p.2.to_dict))) = some l := by
  induction l with
  | nil => rfl
  | cons p rest ih =>
    simp [decodeMirrorAddrs, MirrorAddrInfo.from_to_dict_some, ih]

/-- Claim C10: `save()` followed by `load()` restores exactly the
observable state that was saved, for the global pool (prefix and address
records) and for every mirror (address set with status, `last_used_at` and
`use_count` of each record). -/
theorem save_load_roundtrip (g : GlobalAddrsDB) (m : MirrorDB) :
    g.load (some g.save) = g ∧ m.load (some m.save) = m := by
  constructor
  · cases g with
    | mk pfx addrs =>
      simp only [GlobalAddrsDB.load, GlobalAddrsDB.save, List.map_map]
      congr 1
      induction addrs with
      | nil => rfl
      | cons p rest ih => simp [ih, GlobalAddrInfo.from_to_dict_id]
  · cases m with
    | mk name addrs =>
      simp [MirrorDB.load, MirrorDB.save, decodeMirrorAddrs_encode]

-- ========== C9: release_addr ==========

/-- Claim C9: `release_addr` with a known address sets exactly that
record's status to the reported status (all other fields and all other
records via lookup are unchanged); with an unknown address it is a
complete no-op that creates no record and signals no error. -/
theorem release_addr_spec (db : MirrorDB) (r : AddrReportInfo) :
    (∀ info, findAddr db.addrs r.addr = some info →
      findAddr (db.release_addr r).addrs r.addr = some { info with status := r.status } ∧
      ∀ b, b ≠ r.addr → findAddr (db.release_addr r).addrs b = findAddr db.addrs b) ∧
    (findAddr db.addrs r.addr = none → db.release_addr r = db) := by
  constructor
  · intro info hinfo
    have hsome : (findAddr db.addrs r.addr).isSome := by simp [hinfo]
    constructor
    · simp only [MirrorDB.release_addr, hsome, if_true]
      rw [findAddr_map_update db.addrs r.addr (fun v => { v with status := r.status }) r.addr]
      simp [hinfo]
    · intro b hb
      simp only [MirrorDB.release_addr, hsome, if_true]
      rw [findAddr_map_update db.addrs r.addr (fun v => { v with status := r.status }) b]
      simp [hb]
  · intro hnone
    simp [MirrorDB.release_addr, hnone]

/-- Witness for C9 at a concrete one-address mirror and report. -/
theorem release_addr_spec_witness :
    findAddr (sampleMirror.release_addr sampleReport).addrs sampleReport.addr =
      some { sampleInfo with status := sampleReport.status } ∧
    ∀ b, b ≠ sampleReport.addr →
      findAddr (sampleMirror.release_addr sampleReport).addrs b =
        findAddr sampleMirror.addrs b :=
  (release_addr_spec sampleMirror sampleReport).1 sampleInfo rfl

-- ========== C4: sync_from_global ==========

theorem findAddr_singleton {α : Type} (k : String) (v : α) (a : String) :
    findAddr [(k, v)] a = if k = a then some v else none := rfl

theorem syncAdd_cons (acc : List (String × MirrorAddrInfo)) (addr : String)
    (g : List String) :
    syncAdd acc (addr :: g) =
      syncAdd (if (findAddr acc addr).isSome then acc
               else acc ++ [(addr, freshIdleInfo addr)]) g := rfl

theorem syncAdd_findAddr_of_isSome (g : List String) :
    ∀ (acc : List (String × MirrorAddrInfo)) (a : String),
      (findAddr acc a).isSome → findAddr (syncAdd acc g) a = findAddr acc a := by
  induction g with
  | nil => intro acc a _; rfl
  | cons addr g ih =>
    intro acc a h
    rw [syncAdd_cons]
    by_cases hp : (findAddr acc addr).isSome
    · rw [if_pos hp]
      exact ih acc a h
    · rw [if_neg hp]
      have h2 : (findAddr (acc ++ [(addr, freshIdleInfo addr)]) a).isSome := by
        rw [findAddr_append_of_isSome _ _ a h]; exact h
      rw [ih _ a h2, findAddr_append_of_isSome _ _ a h]

theorem syncAdd_isSome_iff (g : List String) :
    ∀ (acc : List (String × MirrorAddrInfo)) (a : String),
      (findAddr (syncAdd acc g) a).isSome ↔ ((findAddr acc a).isSome ∨ a ∈ g) := by
  induction g with
  | nil => intro acc a; simp [syncAdd]
  | cons addr g ih =>
    intro acc a
    rw [syncAdd_cons]
    by_cases hp : (findAddr acc addr).isSome
    · rw [if_pos hp, ih]
      constructor
      · rintro (h | h)
        · exact Or.inl h
        · exact Or.inr (List.mem_cons_of_mem _ h)
      · rintro (h | h)
        · exact Or.inl h
        · rcases List.mem_cons.mp h with rfl | h
          · exact Or.inl hp
          · exact Or.inr h
    · rw [if_neg hp, ih]
      have happ : (findAddr (acc ++ [(addr, freshIdleInfo addr)]) a).isSome ↔
          ((findAddr acc a).isSome ∨ a = addr) := by
        by_cases hs : (findAddr acc a).isSome
        · rw [findAddr_append_of_isSome _ _ a hs]
          simp [hs]
        · have hn : findAddr acc a = none := Option.not_isSome_iff_eq_none.mp hs
          rw [findAddr_append_of_none _ _ a hn, findAddr_singleton]
          by_cases hea : addr = a
          · rw [if_pos hea]
            simp [hn, hea]
          · rw [if_neg hea]
            have hae : ¬ a = addr := fun h => hea h.symm
            simp [hn, hae]
      rw [happ]
      constructor
      · rintro ((h | h) | h)
        · exact Or.inl h
        · exact Or.inr (by simp [h])
        · exact Or.inr (List.mem_cons_of_mem _ h)
      · rintro (h | h)
        · exact Or.inl (Or.inl h)
        · rcases List.mem_cons.mp h with rfl | h
          · exact Or.inl (Or.inr rfl)
          · exact Or.inr h

theorem syncAdd_fresh (g : List String) :
    ∀ (acc : List (String × MirrorAddrInfo)) (a : String),
      findAddr acc a = none → a ∈ g →
      findAddr (syncAdd acc g) a = some (freshIdleInfo a) := by
  induction g with
  | nil => intro acc a _ h; cases h
  | cons addr g ih =>
    intro acc a hnone hmem
    rw [syncAdd_cons]
    by_cases hea : a = addr
    · subst hea
      have hp : ¬ (findAddr acc a).isSome := by simp [hnone]
      rw [if_neg hp]
      have hsome : findAddr (acc ++ [(a, freshIdleInfo a)]) a = some (freshIdleInfo a) := by
        rw [findAddr_append_of_none _ _ a hnone, findAddr_singleton]
        simp
      rw [syncAdd_findAddr_of_isSome g _ a (by simp [hsome]), hsome]
    · have hmem' : a ∈ g := by
        rcases List.mem_cons.mp hmem with h | h
        · exact absurd h hea
        · exact h
      by_cases hp : (findAddr acc addr).isSome
      · rw [if_pos hp]
        exact ih acc a hnone hmem'
      · rw [if_neg hp]
        apply ih _ a _ hmem'
        rw [findAddr_append_of_none _ _ a hnone, findAddr_singleton]
        rw [if_neg (fun h => hea h.symm)]

theorem findAddr_filter {α : Type} (q : String → Bool)
    (l : List (String × α)) (a : String) :
    findAddr (l.filter (fun p => q p.1)) a = if q a then findAddr l a else none := by
  induction l with
  | nil => simp [findAddr]
  | cons p rest ih =>
    rw [List.filter_cons]
    by_cases hq : q p.1
    · rw [if_pos hq]
      by_cases hpa : p.1 = a
      · subst hpa
        rw [if_pos hq]
        simp [findAddr]
      · have l1 : findAddr (p :: rest.filter (fun x => q x.1)) a =
            findAddr (rest.filter (fun x => q x.1)) a := by
          simp [findAddr, hpa]
        have r1 : findAddr (p :: rest) a = findAddr rest a := by
          simp [findAddr, hpa]
        rw [l1, ih, r1]
    · rw [if_neg hq]
      by_cases hpa : p.1 = a
      · subst hpa
        rw [ih, if_neg hq, if_neg hq]
      · have r1 : findAddr (p :: rest) a = findAddr rest a := by
          simp [findAddr, hpa]
        rw [ih, r1]

/-- Claim C4: after `sync_from_global(globals)` the mirror's address set
equals the global set (lookup succeeds exactly on members of `globals`),
every global address absent before is added as a fresh `IDLE` record, and
every surviving record keeps its status, `last_used_at` and `use_count`
unchanged. -/
theorem sync_from_global_spec (db : MirrorDB) (g : List String) :
    (∀ a, (findAddr (db.sync_from_global g).addrs a).isSome ↔ a ∈ g) ∧
    (∀ a info, a ∈ g → findAddr db.addrs a = some info →
      findAddr (db.sync_from_global g).addrs a = some info) ∧
    (∀ a, a ∈ g → findAddr db.addrs a = none →
      findAddr (db.sync_from_global g).addrs a = some (freshIdleInfo a)) := by
  have haddrs : (db.sync_from_global g).addrs =
      (syncAdd db.addrs g).filter (fun p => decide (p.1 ∈ g)) := rfl
  refine ⟨?_, ?_, ?_⟩
  · intro a
    rw [haddrs, findAddr_filter (fun x => decide (x ∈ g))]
    by_cases hg : a ∈ g
    · rw [if_pos (by simp [hg])]
      rw [syncAdd_isSome_iff]
      simp [hg]
    · rw [if_neg (by simp [hg])]
      simp [hg]
  · intro a info hg hinfo
    rw [haddrs, findAddr_filter (fun x => decide (x ∈ g))]
    rw [if_pos (by simp [hg])]
    rw [syncAdd_findAddr_of_isSome g _ a (by simp [hinfo])]
    exact hinfo
  · intro a hg hnone
    rw [haddrs, findAddr_filter (fun x => decide (x ∈ g))]
    rw [if_pos (by simp [hg])]
    exact syncAdd_fresh g _ a hnone hg

/-- Witness for C4: syncing the one-address sample mirror against a
disjoint global list adds the global address as a fresh idle record. -/
theorem sync_from_global_spec_witness :
    findAddr (sampleMirror.sync_from_global ["2001:db8::9"]).addrs "2001:db8::9" =
      some (freshIdleInfo "2001:db8::9") :=
  (sync_from_global_spec sampleMirror ["2001:db8::9"]).2.2 "2001:db8::9"
    (by simp) (by decide)

-- ========== C6: get_idle_addr ==========

theorem acquireIdle_keys (now : DateTime) (l : List (String × MirrorAddrInfo)) :
    ((acquireIdle now l).2).map Prod.fst = l.map Prod.fst := by
  induction l with
  | nil => rfl
  | cons p rest ih =>
    cases p with
    | mk a info =>
      by_cases h : info.status = AddrStatus.idle
      · simp [acquireIdle, h]
      · simp [acquireIdle, h, ih]

theorem acquireIdle_none_iff (now : DateTime) (l : List (String × MirrorAddrInfo)) :
    (acquireIdle now l).1 = none ↔ ∀ p ∈ l, p.2.status ≠ AddrStatus.idle := by
  induction l with
  | nil => simp [acquireIdle]
  | cons p rest ih =>
    cases p with
    | mk a info =>
      by_cases h : info.status = AddrStatus.idle
      · simp [acquireIdle, h]
      · simp [acquireIdle, h, ih]

theorem acquireIdle_none_eq (now : DateTime) (l : List (String × MirrorAddrInfo))
    (h : (acquireIdle now l).1 = none) : (acquireIdle now l).2 = l := by
  induction l with
  | nil => rfl
  | cons p rest ih =>
    cases p with
    | mk a info =>
      by_cases hst : info.status = AddrStatus.idle
      · simp [acquireIdle, hst] at h
      · simp only [acquireIdle, hst, if_false] at h ⊢
        simp at h ⊢
        exact ih h

theorem acquireIdle_some_mem (now : DateTime) :
    ∀ (l : List (String × MirrorAddrInfo)) (a : String),
      (acquireIdle now l).1 = some a → a ∈ l.map Prod.fst := by
  intro l
  induction l with
  | nil => intro a h; simp [acquireIdle] at h
  | cons p rest ih =>
    intro a h
    cases p with
    | mk k info =>
      by_cases hst : info.status = AddrStatus.idle
      · simp [acquireIdle, hst] at h
        simp [h]
      · simp [acquireIdle, hst] at h
        simp [ih a h]

theorem acquireIdle_some_spec (now : DateTime) :
    ∀ (l : List (String × MirrorAddrInfo)), (l.map Prod.fst).Nodup →
      ∀ a, (acquireIdle now l).1 = some a →
      ∃ info, findAddr l a = some info ∧ info.status = AddrStatus.idle ∧
        findAddr (acquireIdle now l).2 a =
          some { info with status := AddrStatus.inUse, last_used_at := some now, use_count := info.use_count + 1 } ∧
        ∀ b, b ≠ a → findAddr (acquireIdle now l).2 b = findAddr l b := by
  intro l
  induction l with
  | nil => intro _ a h; simp [acquireIdle] at h
  | cons p rest ih =>
    intro hnd a h
    cases p with
    | mk k info =>
      by_cases hst : info.status = AddrStatus.idle
      · have hk : k = a := by simp [acquireIdle, hst] at h; exact h
        subst hk
        refine ⟨info, by simp [findAddr], hst, ?_, ?_⟩
        · simp [acquireIdle, hst, findAddr]
        · intro b hb
          have hkb : ¬ (k = b) := fun hh => hb hh.symm
          simp [acquireIdle, hst, findAddr, hkb]
      · have hrec : (acquireIdle now rest).1 = some a := by
          simp [acquireIdle, hst] at h
          exact h
        have hnd' : (rest.map Prod.fst).Nodup := (List.nodup_cons.mp hnd).2
        have hknot : k ∉ rest.map Prod.fst := (List.nodup_cons.mp hnd).1
        have hka : ¬ (k = a) := by
          intro hh
          subst hh
          exact hknot (acquireIdle_some_mem now rest k hrec)
        obtain ⟨info0, h1, h2, h3, h4⟩ := ih hnd' a hrec
        refine ⟨info0, by simp [findAddr, hka, h1], h2, ?_, ?_⟩
        · simp [acquireIdle, hst, findAddr, hka, h3]
        · intro b hb
          by_cases hkb : k = b
          · subst hkb
            simp [acquireIdle, hst, findAddr]
          · simp [acquireIdle, hst, findAddr, hkb, h4 b hb]

/-- Claim C6: `get_idle_addr` either returns an address whose record was
`IDLE`, atomically setting it to `USING`, stamping `last_used_at := now`
and incrementing `use_count` by one while leaving every other record
unchanged, or returns `none` and mutates nothing when no record is idle
(in particular on an empty mirror). -/
theorem acquire_idle_spec (db : MirrorDB) (now : DateTime) (hwf : db.wf) :
    (∀ a, (db.get_idle_addr now).1 = some a →
      ∃ info, findAddr db.addrs a = some info ∧ info.status = AddrStatus.idle ∧
        findAddr (db.get_idle_addr now).2.addrs a =
          some { info with status := AddrStatus.inUse, last_used_at := some now, use_count := info.use_count + 1 } ∧
        ∀ b, b ≠ a → findAddr (db.get_idle_addr now).2.addrs b = findAddr db.addrs b) ∧
    ((db.get_idle_addr now).1 = none →
      (∀ p ∈ db.addrs, p.2.status ≠ AddrStatus.idle) ∧ (db.get_idle_addr now).2 = db) := by
  constructor
  · intro a h
    exact acquireIdle_some_spec now db.addrs hwf a h
  · intro h
    refine ⟨(acquireIdle_none_iff now db.addrs).mp h, ?_⟩
    have h2 := acquireIdle_none_eq now db.addrs h
    cases db with
    | mk name addrs => simp [MirrorDB.get_idle_addr, h2]

/-- Witness for C6 at the one-idle-address sample mirror. -/
theorem acquire_idle_spec_witness :
    ∃ info, findAddr sampleMirror.addrs "2001:db8:1:2:1:2:3:4" = some info ∧
      info.status = AddrStatus.idle ∧
      findAddr (sampleMirror.get_idle_addr 5).2.addrs "2001:db8:1:2:1:2:3:4" =
        some { info with status := AddrStatus.inUse, last_used_at := some 5, use_count := info.use_count + 1 } ∧
      ∀ b, b ≠ "2001:db8:1:2:1:2:3:4" →
        findAddr (sampleMirror.get_idle_addr 5).2.addrs b =
          findAddr sampleMirror.addrs b :=
  (acquire_idle_spec sampleMirror 5
    (by show (List.map Prod.fst sampleMirror.addrs).Nodup; decide)).1
    "2001:db8:1:2:1:2:3:4" (by decide)

-- ========== C3: no address is leased twice ==========

theorem map_fst_update {α : Type} (l : List (String × α)) (k : String) (f : α → α) :
    (l.map (fun p => if p.1 = k then (p.1, f p.2) else p)).map Prod.fst =
      l.map Prod.fst := by
  induction l with
  | nil => rfl
  | cons p rest ih =>
    by_cases hp : p.1 = k
    · simp [hp, ih]
    · simp [hp, ih]

theorem release_addr_keys (db : MirrorDB) (r : AddrReportInfo) :
    (db.release_addr r).addrs.map Prod.fst = db.addrs.map Prod.fst := by
  by_cases h : (findAddr db.addrs r.addr).isSome
  · simp only [MirrorDB.release_addr]
    rw [if_pos h]
    exact map_fst_update db.addrs r.addr (fun v => { v with status := r.status })
  · simp only [MirrorDB.release_addr]
    rw [if_neg h]

theorem step_keys (db : MirrorDB) (op : MirrorOp) :
    ((db.step op).1).addrs.map Prod.fst = db.addrs.map Prod.fst := by
  cases op with
  | pick now => exact acquireIdle_keys now db.addrs
  | report a s => exact release_addr_keys db _

theorem step_preserves_lease (db : MirrorDB) (op : MirrorOp) (a : String)
    (hwf : (db.addrs.map Prod.fst).Nodup) (info : MirrorAddrInfo)
    (hfind : findAddr db.addrs a = some info)
    (hst : info.status = AddrStatus.inUse)
    (hop : ∀ s, op ≠ MirrorOp.report a s) :
    (db.step op).2 ≠ some a ∧ findAddr ((db.step op).1).addrs a = some info := by
  cases op with
  | pick now =>
    cases hb : (db.get_idle_addr now).1 with
    | none =>
      have heq : (acquireIdle now db.addrs).2 = db.addrs :=
        acquireIdle_none_eq now db.addrs hb
      constructor
      · show (db.get_idle_addr now).1 ≠ some a
        rw [hb]; exact fun hh => Option.noConfusion hh
      · show findAddr (acquireIdle now db.addrs).2 a = some info
        rw [heq]; exact hfind
    | some b =>
      obtain ⟨infoB, hb1, hb2, _, hb4⟩ := acquireIdle_some_spec now db.addrs hwf b hb
      have hba : b ≠ a := by
        intro hh
        subst hh
        rw [hfind] at hb1
        have : info.status = AddrStatus.idle := by
          cases hb1; exact hb2
        rw [hst] at this
        exact AddrStatus.noConfusion this
      constructor
      · show (db.get_idle_addr now).1 ≠ some a
        rw [hb]
        intro hh
        exact hba (Option.some.inj hh)
      · show findAddr (acquireIdle now db.addrs).2 a = some info
        rw [hb4 a (fun hh => hba hh.symm)]
        exact hfind
  | report b s =>
    have hba : b ≠ a := by
      intro hh
      subst hh
      exact hop s rfl
    constructor
    · exact fun hh => Option.noConfusion hh
    · show findAddr (db.release_addr { addr := b, status := s, report_at := none }).addrs a = some info
      by_cases hsome : (findAddr db.addrs b).isSome
      · simp only [MirrorDB.release_addr]
        rw [if_pos hsome]
        rw [findAddr_map_update db.addrs b (fun v => { v with status := s }) a]
        rw [if_neg (fun hh => hba hh.symm)]
        exact hfind
      · simp only [MirrorDB.release_addr]
        rw [if_neg hsome]
        exact hfind

theorem run_no_pick (ops : List MirrorOp) :
    ∀ (db : MirrorDB) (a : String) (info : MirrorAddrInfo),
      (db.addrs.map Prod.fst).Nodup →
      findAddr db.addrs a = some info → info.status = AddrStatus.inUse →
      (∀ s, MirrorOp.report a s ∉ ops) →
      some a ∉ (db.run ops).2 := by
  induction ops with
  | nil =>
    intro db a info _ _ _ _
    simp [MirrorDB.run]
  | cons op ops ih =>
    intro db a info hwf hfind hst hno
    have hop : ∀ s, op ≠ MirrorOp.report a s := by
      intro s heq
      exact hno s (by rw [heq] at *; exact List.mem_cons_self _ _)
    obtain ⟨hne, hpres⟩ := step_preserves_lease db op a hwf info hfind hst hop
    have hrun : (db.run (op :: ops)).2 =
        (db.step op).2 :: (((db.step op).1).run ops).2 := rfl
    rw [hrun]
    intro hmem
    rcases List.mem_cons.mp hmem with h | h
    · exact hne h.symm
    · have hwf2 : (((db.step op).1).addrs.map Prod.fst).Nodup := by
        rw [step_keys]; exact hwf
      exact ih _ a info hwf2 hpres hst
        (fun s hm => hno s (List.mem_cons_of_mem _ hm)) h

/-- Claim C3: between a successful `pick` returning address `a` and the
next `report` of `a`, every other `pick` on the same mirror returns an
address different from `a`: across any further pick/report trace that
contains no report of `a`, no pick result equals `a`. -/
theorem mirror_no_double_lease (db : MirrorDB) (now : DateTime) (a : String)
    (ops : List MirrorOp) (hwf : db.wf)
    (hpick : (db.get_idle_addr now).1 = some a)
    (hnorep : ∀ s, MirrorOp.report a s ∉ ops) :
    some a ∉ (((db.get_idle_addr now).2).run ops).2 := by
  obtain ⟨info, _, _, h3, _⟩ := acquireIdle_some_spec now db.addrs hwf a hpick
  have hwf2 : (((db.get_idle_addr now).2).addrs.map Prod.fst).Nodup := by
    show ((acquireIdle now db.addrs).2.map Prod.fst).Nodup
    rw [acquireIdle_keys]
    exact hwf
  exact run_no_pick ops _ a _ hwf2 h3 rfl hnorep

/-- Witness for C3: pick the first of two idle addresses, then a second
pick (with no intervening report) does not return it. -/
theorem mirror_no_double_lease_witness :
    some "2001:db8::a" ∉ (((twoIdleMirror.get_idle_addr 5).2).run [MirrorOp.pick 6]).2 :=
  mirror_no_double_lease twoIdleMirror 5 "2001:db8::a" [MirrorOp.pick 6]
    (by show (List.map Prod.fst twoIdleMirror.addrs).Nodup; decide)
    (by decide)
    (by intro s h; simp at h)

-- ========== C5: spawn ==========

theorem spawnFrom_always_fail (addr : String) (checker : Nat → Bool)
    (now : DateTime) (st : ServerState) :
    ∀ (fuel i : Nat), (∀ k, i ≤ k → k < i + fuel → checker k = false) →
      ServerState.spawnFrom addr checker now st i fuel = (none, st, fuel) := by
  intro fuel
  induction fuel with
  | zero => intro i _; rfl
  | succ f ih =>
    intro i h
    have h0 : checker i = false := h i (le_refl i) (by omega)
    have hrec := ih (i + 1) (fun k hk1 hk2 => h k (by omega) (by omega))
    simp [ServerState.spawnFrom, h0, hrec]

theorem spawnFrom_success (addr : String) (checker : Nat → Bool)
    (now : DateTime) (st : ServerState) :
    ∀ (fuel d i : Nat), d < fuel → checker (i + d) = true →
      (∀ j, j < d → checker (i + j) = false) →
      ServerState.spawnFrom addr checker now st i fuel =
        (some addr, st.admitAddr addr now, d + 1) := by
  intro fuel
  induction fuel with
  | zero => intro d i hd _ _; exact absurd hd (Nat.not_lt_zero d)
  | succ f ih =>
    intro d i hd hsucc hprev
    cases d with
    | zero =>
      have h0 : checker i = true := by simpa using hsucc
      simp [ServerState.spawnFrom, h0]
    | succ e =>
      have h0 : checker i = false := by
        have h1 := hprev 0 (Nat.succ_pos e)
        simpa using h1
      have hrec := ih e (i + 1) (by omega)
        (by rw [show i + 1 + e = i + (e + 1) by omega]; exact hsucc)
        (fun j hj => by
          rw [show i + 1 + j = i + (j + 1) by omega]
          exact hprev (j + 1) (by omega))
      simp [ServerState.spawnFrom, h0, hrec]

theorem add_addr_addrs (db : GlobalAddrsDB) (addr : String) (now : DateTime) :
    ((db.add_addr addr now).2).addrs =
      (if (findAddr db.addrs addr).isSome then db.addrs
       else db.addrs ++ [(addr, { addr := addr, created_at := some now })]) := by
  by_cases h : (findAddr db.addrs addr).isSome
  · simp only [GlobalAddrsDB.add_addr]
    rw [if_pos h, if_pos h]
  · simp only [GlobalAddrsDB.add_addr]
    rw [if_neg h, if_neg h]

/-- Claim C5: `spawn` generates one candidate and checks that same
candidate up to `SPAWN_MAX_RETRIES` times.  With an always-failing checker
it returns `none` after exactly `SPAWN_MAX_RETRIES` checks leaving the
state (in particular the global pool) unchanged; if the first success is
at attempt `i`, it performs `i + 1` checks, returns the address, admits it
to the global pool (appending it when new), and re-syncs every mirror from
the new global address list. -/
theorem spawn_spec (addr : String) (checker : Nat → Bool) (now : DateTime)
    (st : ServerState) :
    ((∀ i, i < SPAWN_MAX_RETRIES → checker i = false) →
      ServerState.spawn addr checker now st = (none, st, SPAWN_MAX_RETRIES)) ∧
    (∀ i, i < SPAWN_MAX_RETRIES → checker i = true →
      (∀ j, j < i → checker j = false) →
      ServerState.spawn addr checker now st =
        (some addr, st.admitAddr addr now, i + 1) ∧
      (st.admitAddr addr now).global_db.has_addr addr = true ∧
      (st.admitAddr addr now).global_db.get_all_addrs =
        (if st.global_db.has_addr addr then st.global_db.get_all_addrs
         else st.global_db.get_all_addrs ++ [addr]) ∧
      (st.admitAddr addr now).mirrors =
        st.mirrors.map (fun p =>
          (p.1, p.2.sync_from_global (st.admitAddr addr now).global_db.get_all_addrs))) := by
  constructor
  · intro h
    exact spawnFrom_always_fail addr checker now st SPAWN_MAX_RETRIES 0
      (fun k _ hk => h k (by omega))
  · intro i hi hct hprev
    refine ⟨?_, ?_, ?_, rfl⟩
    · exact spawnFrom_success addr checker now st SPAWN_MAX_RETRIES i 0 hi
        (by rw [Nat.zero_add]; exact hct)
        (fun j hj => by rw [Nat.zero_add]; exact hprev j hj)
    · show (findAddr ((st.global_db.add_addr addr now).2).addrs addr).isSome = true
      rw [add_addr_addrs]
      by_cases h : (findAddr st.global_db.addrs addr).isSome
      · rw [if_pos h]; exact h
      · rw [if_neg h]
        have hn : findAddr st.global_db.addrs addr = none :=
          Option.not_isSome_iff_eq_none.mp h
        rw [findAddr_append_of_none _ _ _ hn, findAddr_singleton, if_pos rfl]
        rfl
    · show (((st.global_db.add_addr addr now).2).addrs).map Prod.fst = _
      rw [add_addr_addrs]
      by_cases h : (findAddr st.global_db.addrs addr).isSome
      · have hh : st.global_db.has_addr addr = true := h
        rw [if_pos h, if_pos hh]
        rfl
      · have hh : ¬ (st.global_db.has_addr addr = true) := h
        rw [if_neg h, if_neg hh]
        simp [GlobalAddrsDB.get_all_addrs]

/-- Witness for C5: a checker that first succeeds on attempt 2 makes
`spawn` stop after 3 checks with the candidate admitted. -/
theorem spawn_spec_witness :
    ServerState.spawn "2001:db8::1" (fun i => decide (2 ≤ i)) 0 stEmpty =
      (some "2001:db8::1", stEmpty.admitAddr "2001:db8::1" 0, 2 + 1) ∧
    (stEmpty.admitAddr "2001:db8::1" 0).global_db.has_addr "2001:db8::1" = true ∧
    (stEmpty.admitAddr "2001:db8::1" 0).global_db.get_all_addrs =
      (if stEmpty.global_db.has_addr "2001:db8::1" then stEmpty.global_db.get_all_addrs
       else stEmpty.global_db.get_all_addrs ++ ["2001:db8::1"]) ∧
    (stEmpty.admitAddr "2001:db8::1" 0).mirrors =
      stEmpty.mirrors.map (fun p =>
        (p.1, p.2.sync_from_global
          (stEmpty.admitAddr "2001:db8::1" 0).global_db.get_all_addrs)) :=
  (spawn_spec "2001:db8::1" (fun i => decide (2 ≤ i)) 0 stEmpty).2 2
    (by decide) (by decide) (fun j hj => decide_eq_false (by omega))

-- ========== C1: spawns with an always-failing checker ==========

theorem spawnsGo_all_fail (gen : Nat → String) (checker : Nat → Nat → Bool)
    (now : DateTime) (hfail : ∀ k i, checker k i = false) :
    ∀ (n k fails att : Nat) (st : ServerState),
      fails < SPAWN_MAX_ADDRS → SPAWN_MAX_ADDRS ≤ fails + n →
      ServerState.spawnsGo gen checker now k n [] fails att st =
        { addrs := [], should_stop := true, state := st
        , attempts := att + (SPAWN_MAX_ADDRS - fails) } := by
  intro n
  induction n with
  | zero =>
    intro k fails att st h1 h2
    exact absurd h2 (by omega)
  | succ m ih =>
    intro k fails att st h1 h2
    have hsp : ServerState.spawn (gen k) (checker k) now st =
        (none, st, SPAWN_MAX_RETRIES) :=
      spawnFrom_always_fail (gen k) (checker k) now st SPAWN_MAX_RETRIES 0
        (fun j _ _ => hfail k j)
    by_cases hstop : SPAWN_MAX_ADDRS ≤ fails + 1
    · have hone : SPAWN_MAX_ADDRS - fails = 1 := by omega
      simp [ServerState.spawnsGo, hsp, hstop, hone]
    · have hrec := ih (k + 1) (fails + 1) (att + 1) st (by omega) (by omega)
      simp only [ServerState.spawnsGo, hsp, hstop, if_false]
      rw [hrec]
      congr 1
      omega

/-- Claim C1 (amended): for every `num ≥ SPAWN_MAX_ADDRS`, `spawns(num)`
with an always-failing checker returns the empty list with
`should_stop = true`, stopping after exactly `SPAWN_MAX_ADDRS` consecutive
failed `spawn()` attempts and leaving the state unchanged. -/
theorem spawns_always_fail_spec (gen : Nat → String) (checker : Nat → Nat → Bool)
    (now : DateTime) (num : Nat) (st : ServerState)
    (hfail : ∀ k i, checker k i = false) (hnum : SPAWN_MAX_ADDRS ≤ num) :
    ServerState.spawns gen checker now num st =
      { addrs := [], should_stop := true, state := st
      , attempts := SPAWN_MAX_ADDRS } := by
  have h := spawnsGo_all_fail gen checker now hfail num 0 0 0 st (by decide) (by omega)
  have he : ServerState.spawns gen checker now num st =
      ServerState.spawnsGo gen checker now 0 num [] 0 0 st := rfl
  rw [he, h]
  congr 1

/-- Witness for C1 at `num = SPAWN_MAX_ADDRS` on the empty server state. -/
theorem spawns_always_fail_spec_witness :
    ServerState.spawns (fun _ => "2001:db8::1") (fun _ _ => false) 0
        SPAWN_MAX_ADDRS stEmpty =
      { addrs := [], should_stop := true, state := stEmpty
      , attempts := SPAWN_MAX_ADDRS } :=
  spawns_always_fail_spec (fun _ => "2001:db8::1") (fun _ _ => false) 0
    SPAWN_MAX_ADDRS stEmpty (fun _ _ => rfl) (le_refl _)

/-- Counterexample to C1 as stated: at `n = 1` (which is `≥ 1`), `spawns`
with an always-failing checker returns `should_stop = false` after a
single failed attempt, not `([], true)` after `SPAWN_MAX_ADDRS` attempts. -/
theorem spawns_small_n_counterexample :
    ServerState.spawns (fun _ => "2001:db8::1") (fun _ _ => false) 0 1 stEmpty =
      { addrs := [], should_stop := false, state := stEmpty, attempts := 1 } := by
  rfl

-- ========== C2: the /spawns handler ==========

/-- Claim C2 is violated by the code: at `num = 1` with every check
failing, the admitted list is empty, yet the handler answers
`success = true` (it takes `len` of the un-unpacked pair, which is 2) and
its `addrs` field is the pair `([], false)` rather than the list. -/
theorem spawns_handler_divergence :
    spawnsHandler (fun _ => "2001:db8::1") (fun _ _ => false) 0 1 stEmpty =
      { success := true, addrs := ([], false) } ∧
    (ServerState.spawns (fun _ => "2001:db8::1") (fun _ _ => false) 0 1 stEmpty).addrs = [] := by
  exact ⟨rfl, rfl⟩

-- ========== C7: PrefixProbe (IPv6Prefixer) ==========

theorem foldl_collect_acc :
    ∀ (l : List NetInterface) (acc : List IfaceRecord),
      l.foldl (fun a itf => a ++ collectInterface itf) acc =
        acc ++ l.foldl (fun a itf => a ++ collectInterface itf) [] := by
  intro l
  induction l with
  | nil => intro acc; simp
  | cons i rest ih =>
    intro acc
    rw [List.foldl_cons, List.foldl_cons]
    rw [ih (acc ++ collectInterface i), ih ([] ++ collectInterface i)]
    simp [List.append_assoc]

theorem init_network_interfaces_cons (i : NetInterface) (rest : List NetInterface) :
    init_network_interfaces (i :: rest) =
      collectInterface i ++ init_network_interfaces rest := by
  unfold init_network_interfaces
  simp only [List.foldl_cons, List.nil_append]
  exact foldl_collect_acc rest (collectInterface i)

theorem firstAddrQualifies_true (itf : NetInterface)
    (hq : firstAddrQualifies itf = true) :
    strStartsWith (strToLower itf.name) "cloudflare" = false ∧
    ∃ e es, itf.ipv6_addrs = e :: es ∧ strStartsWith e.addr "2" = true := by
  unfold firstAddrQualifies at hq
  rw [Bool.and_eq_true] at hq
  obtain ⟨h1, h2⟩ := hq
  refine ⟨by simpa using h1, ?_⟩
  cases he : itf.ipv6_addrs with
  | nil => rw [he] at h2; simp at h2
  | cons e es => rw [he] at h2; exact ⟨e, es, rfl, h2⟩

theorem collectInterface_eq_nil (itf : NetInterface)
    (hq : firstAddrQualifies itf = false) : collectInterface itf = [] := by
  unfold collectInterface
  by_cases hc : strStartsWith (strToLower itf.name) "cloudflare"
  · rw [if_pos hc]
  · rw [if_neg hc]
    have h2 : (match itf.ipv6_addrs with
        | [] => false
        | e :: _ => strStartsWith e.addr "2") = false := by
      unfold firstAddrQualifies at hq
      simp [hc] at hq
      exact hq
    cases he : itf.ipv6_addrs with
    | nil => rfl
    | cons e es =>
      rw [he] at h2
      have h2e : strStartsWith e.addr "2" = false := h2
      rw [List.takeWhile_cons, if_neg (by simp [h2e])]
      rfl

theorem collectInterface_head (itf : NetInterface) (e : AddrInfoEntry)
    (es : List AddrInfoEntry) (he : itf.ipv6_addrs = e :: es)
    (hc : strStartsWith (strToLower itf.name) "cloudflare" = false)
    (h2 : strStartsWith e.addr "2" = true) :
    collectInterface itf =
      ({ interface := itf.name, addr := e.addr, netmask := e.netmask
       , prefixStr := (get_prefix_from_addr_netmask e.addr e.netmask).1
       , prefixBits := (get_prefix_from_addr_netmask e.addr e.netmask).2 } : IfaceRecord)
        :: (es.takeWhile (fun x => strStartsWith x.addr "2")).map (fun x =>
             { interface := itf.name, addr := x.addr, netmask := x.netmask
             , prefixStr := (get_prefix_from_addr_netmask x.addr x.netmask).1
             , prefixBits := (get_prefix_from_addr_netmask x.addr x.netmask).2 }) := by
  unfold collectInterface
  rw [if_neg (by simp [hc]), he, List.takeWhile_cons, if_pos h2, List.map_cons]

/-- Claim C7 (amended): the probe selects the first interface that is not
excluded (name beginning with `cloudflare`) and whose first listed IPv6
address is global unicast (first hex digit `2`); it derives the prefix
from that first address and its netmask by counting the `f` hex digits of
the mask (4 bits each) rounded down to whole 16-bit groups, and it fails
(the spec's `NoGlobalIPv6`) exactly when no such interface exists. -/
theorem prefix_probe_amended (ifaces : List NetInterface) :
    IPv6PrefixerInit ifaces = firstAddrProbe ifaces := by
  induction ifaces with
  | nil => rfl
  | cons i rest ih =>
    have hcons : init_network_interfaces (i :: rest) =
        collectInterface i ++ init_network_interfaces rest :=
      init_network_interfaces_cons i rest
    by_cases hq : firstAddrQualifies i
    · obtain ⟨hc, e, es, he, h2⟩ := firstAddrQualifies_true i hq
      have hcol := collectInterface_head i e es he hc h2
      show init_prefix_result (init_network_interfaces (i :: rest)) =
        firstAddrProbe (i :: rest)
      rw [hcons, hcol]
      have hfind : (i :: rest).find? firstAddrQualifies = some i :=
        List.find?_cons_of_pos rest hq
      simp only [firstAddrProbe, hfind, he]
      rfl
    · have hnil : collectInterface i = [] :=
        collectInterface_eq_nil i (by simpa using hq)
      show init_prefix_result (init_network_interfaces (i :: rest)) =
        firstAddrProbe (i :: rest)
      rw [hcons, hnil, List.nil_append]
      have hfind : (i :: rest).find? firstAddrQualifies =
          rest.find? firstAddrQualifies :=
        List.find?_cons_of_neg rest hq
      show IPv6PrefixerInit rest = firstAddrProbe (i :: rest)
      rw [ih]
      simp only [firstAddrProbe, hfind]

/-- Counterexample to C7 as stated: `sampleIface` is not excluded and has
a global unicast IPv6 address, so under the claim the probe must select it
(and derive `2001:db8:1:2`); but the code's inner loop breaks at the
link-local first address, collects nothing, and the probe fails. -/
theorem prefix_probe_counterexample :
    claimQualifiesAtLeastOne sampleIface = true ∧
    IPv6PrefixerInit [sampleIface] = none :=
  ⟨by decide, by decide⟩

end Webu
